import Mathlib

/-!
Verification of the multimodal-agent demo repository against its
natural-language specification.  The Python modules are shallowly embedded:
pure record-building code becomes Lean functions, the file-system effects of
the JSON loggers become functions on an explicit file-content type, and the
stateful agents (camera lifecycle, ADK session table, monitor loop) become
step functions on explicit state types, with external effects (SDK calls,
frame capture, clock) supplied as environment parameters.
-/

namespace Spec2Proof

/-! ## JSON values

The loggers build flat Python dicts and serialise them with `json.dump`.
A JSON value is embedded structurally; a log record is an ordered list of
field/value pairs, mirroring the literal dict displays in the source. -/

inductive JValue where
  | str (s : String)
  | num (n : Int)
  | boolean (b : Bool)
  | arr (elems : List JValue)
  | obj (pairs : List (String × JValue))

abbrev LogRecord := List (String × JValue)

/-- Field names of a record, in order. -/
def recordFields (r : LogRecord) : List String := r.map Prod.fst

/-- The dict built by `CameraAgent._log_change` (camera_agent.py lines 96-103):
`{"timestamp": ..., "type": "video_change", "description_by_cv": ...,
"comment_by_llm": ..., "llm_processing_time_ms": ...}`.  The processing time
is carried as an integer number of hundredths of milliseconds, standing for
the `round(processing_time_ms, 2)` value. -/
def cameraLogEntry (timestamp description modelComment : String)
    (processingTimeCentiMs : Int) : LogRecord :=
  [("timestamp", .str timestamp),
   ("type", .str "video_change"),
   ("description_by_cv", .str description),
   ("comment_by_llm", .str modelComment),
   ("llm_processing_time_ms", .num processingTimeCentiMs)]

/-- The dict built by `AudioAgent._log_transcription` (audio_agent.py line 89):
`{"timestamp": timestamp, "speaker": speaker, "text": text}`. -/
def audioLogEntry (timestamp speaker text : String) : LogRecord :=
  [("timestamp", .str timestamp),
   ("speaker", .str speaker),
   ("text", .str text)]

/-! ## Log files on disk

Both loggers read the prior file contents with the same guarded pattern
(camera_agent.py lines 105-115, audio_agent.py lines 91-100):

    current_logs = []
    if os.path.exists(file) and os.path.getsize(file) > 0:
        try:
            current_logs = json.load(f)
            if not isinstance(current_logs, list): current_logs = []
        except json.JSONDecodeError: current_logs = []
    current_logs.append(log_entry)
    json.dump(current_logs, f)

The prior state of a log file is embedded by the cases this code
distinguishes. -/

inductive FileContent (α : Type) where
  /-- `os.path.exists` is false. -/
  | missing
  /-- the file exists but `os.path.getsize` is 0. -/
  | emptyFile
  /-- `json.load` raises `JSONDecodeError`. -/
  | malformed
  /-- `json.load` succeeds but the value is not a Python list. -/
  | jsonNonList
  /-- `json.load` yields the list `entries`. -/
  | jsonList (entries : List α)
deriving DecidableEq, Repr

/-- The `current_logs` value the guarded read produces from the prior file. -/
def loadCurrentLogs {α : Type} : FileContent α → List α
  | .jsonList l => l
  | _ => []

/-- Appending one entry and rewriting the file, shared tail of `_log_change`
and `_log_transcription`. -/
def writeAppended {α : Type} (prior : FileContent α) (entry : α) : FileContent α :=
  .jsonList (loadCurrentLogs prior ++ [entry])

/-- `CameraAgent._log_change` as a function of the prior camera-log file. -/
def log_change (prior : FileContent LogRecord) (timestamp description modelComment : String)
    (processingTimeCentiMs : Int) : FileContent LogRecord :=
  writeAppended prior (cameraLogEntry timestamp description modelComment processingTimeCentiMs)

/-- `AudioAgent._log_transcription` as a function of the prior audio-log file. -/
def log_transcription (prior : FileContent LogRecord) (timestamp speaker text : String) :
    FileContent LogRecord :=
  writeAppended prior (audioLogEntry timestamp speaker text)

/-- Whether a file holds a valid JSON array. -/
def isJsonArray {α : Type} : FileContent α → Bool
  | .jsonList _ => true
  | _ => false

/-! ## AudioAgent.__init__ and the two log files

audio_agent.py lines 70-78: the audio log is unconditionally rewritten to
`[]`; the camera log is written to `[]` only when `os.path.exists` is false.
A file that does not exist is `none`; an existing file carries its
`FileContent`. -/

/-- Effect of `AudioAgent.__init__` on `(audio_log.json, camera_log.json)`;
the prior audio log is discarded whatever it was. -/
def audio_agent_init_logs {α : Type} (_audioLog cameraLog : Option (FileContent α)) :
    Option (FileContent α) × Option (FileContent α) :=
  (some (.jsonList []),
   match cameraLog with
   | some c => some c
   | none => some (.jsonList []))

/-! ## The camera agent's monitoring loop

`CameraAgent._monitor_loop` (camera_agent.py lines 123-202) repeats, while
`self.running` holds: capture a frame-change result from the video monitor,
save the frame to disk when bytes are available, and when a change was
detected with bytes available push the frame to the model and log the
outcome.  The external effects of one iteration — the capture result, the
outcome of `start_chat` if attempted, the outcome of `chat.send_message` if
attempted, and the clock readings — are supplied as an environment. -/

/-- The triple returned by `VideoMonitor.process_frame_for_changes`:
`(changed, description, frame_bytes)`; `none` bytes model falsy frame data. -/
structure FrameResult where
  changed : Bool
  description : String
  frame_bytes : Option (List Nat)
deriving DecidableEq

/-- Outcome of `self.chat.send_message([prompt_text, image_part])`:
either a response whose extracted comment is `model_comment` (the
`candidates[0].content.parts[0].text or ""` chain, possibly empty), or an
exception. -/
inductive SendOutcome where
  | ok (model_comment : String)
  | raises (msg : String)
deriving DecidableEq

/-- External effects available to one iteration of the monitor loop. -/
structure MonitorEnv where
  frame : FrameResult
  /-- whether `model.start_chat` succeeds, should the iteration attempt it. -/
  chatStartOk : Bool
  /-- outcome of the model call, should the iteration attempt it. -/
  send : SendOutcome
  /-- `datetime.datetime.now().isoformat()` at logging time. -/
  timestamp : String
  /-- elapsed model time in hundredths of milliseconds. -/
  elapsedCentiMs : Int

/-- The mutable fields of `CameraAgent` the loop touches: whether
`self.chat` is set, and `self.running`. -/
structure CameraState where
  chat : Bool
  running : Bool
deriving DecidableEq

/-- Observable actions of one iteration, in program order. -/
inductive MonitorEvent where
  /-- writing `frame_bytes` to `latest_camera_image.jpg`. -/
  | saveLatestImage (bytes : List Nat)
  /-- `chat.send_message([prompt_text, image_part])`. -/
  | modelCall (prompt : String) (image : List Nat)
  /-- `_log_change` appending a record to the camera log. -/
  | logAppend (entry : LogRecord)
  /-- `time.sleep`, in milliseconds. -/
  | sleepMs (ms : Nat)

/-- The fixed prompt template of camera_agent.py lines 156-164, with the CV
description spliced in. -/
def promptText (description : String) : String :=
  "You are an AI assistant observing a live video feed from a security camera. " ++
  "A computer vision algorithm has detected a significant visual change in the scene. " ++
  "The algorithm's initial description of this change is: '" ++ description ++ "'. " ++
  "Please analyze the provided image carefully and give a concise, human-readable description " ++
  "of what you observe in the image that is relevant to this detected change. " ++
  "Focus on new objects, significant movements, changes in object states, or anything unusual. " ++
  "Avoid generic statements like 'I see an image.' Be specific."

/-- One iteration of the `while self.running` body (lines 130-194). -/
def monitor_iteration (st : CameraState) (env : MonitorEnv) :
    CameraState × List MonitorEvent :=
  let ev0 : List MonitorEvent :=
    match env.frame.frame_bytes with
    | some bytes => [.saveLatestImage bytes]
    | none => []
  match env.frame.frame_bytes, env.frame.changed with
  | some bytes, true =>
    -- `if changed and frame_bytes:`
    let chatAvailable := st.chat || env.chatStartOk
    if chatAvailable then
      let call := MonitorEvent.modelCall (promptText env.frame.description) bytes
      match env.send with
      | .ok model_comment =>
        let entry :=
          if model_comment.trim ≠ "" then
            cameraLogEntry env.timestamp env.frame.description model_comment env.elapsedCentiMs
          else
            cameraLogEntry env.timestamp env.frame.description
              "LLM provided no comment or an empty comment." env.elapsedCentiMs
        ({ st with chat := true }, ev0 ++ [call, .logAppend entry, .sleepMs 100])
      | .raises _ =>
        -- `except`: reset chat, sleep 2 s, then fall through to the 0.1 s sleep
        ({ st with chat := false }, ev0 ++ [call, .sleepMs 2000, .sleepMs 100])
    else
      -- `_start_chat_session` failed: sleep 5 s and `continue`
      (st, ev0 ++ [.sleepMs 5000])
  | _, _ =>
    -- no change, or change without frame bytes: only the 0.1 s sleep
    (st, ev0 ++ [.sleepMs 100])

/-- The `while self.running:` loop over a finite trace of environments. -/
def monitor_loop (st : CameraState) : List MonitorEnv → CameraState × List MonitorEvent
  | [] => (st, [])
  | env :: rest =>
    if st.running then
      let step := monitor_iteration st env
      let tail := monitor_loop step.1 rest
      (tail.1, step.2 ++ tail.2)
    else
      (st, [])

/-- Number of model calls among the events of an iteration. -/
def countModelCalls (evs : List MonitorEvent) : Nat :=
  (evs.filter fun e => match e with | .modelCall _ _ => true | _ => false).length

/-- Number of camera-log appends among the events of an iteration. -/
def countLogAppends (evs : List MonitorEvent) : Nat :=
  (evs.filter fun e => match e with | .logAppend _ => true | _ => false).length

/-! ## MultimodalAgent.send_message

`MultimodalAgent` (app/agent.py; the streaming-test copy is line-for-line
identical in `send_message`) wraps a Vertex AI chat.  The SDK chat is mocked
by a function from the forwarded parts list to a response or an error.  -/

/-- An SDK `Part`: a text part (`Part.from_text`) or inline data. -/
inductive MPart where
  | text (s : String)
  | data (mime : String) (bytes : List Nat)
deriving DecidableEq

def Part_from_text (s : String) : MPart := .text s

/-- A mocked chat session, identified by a number. -/
structure ChatSession where
  id : Nat
deriving DecidableEq

/-- The agent fields: `project_id`, `location`, `model_name`, `chat`. -/
structure MultimodalAgent where
  project_id : String
  location : String
  model_name : String
  chat : Option ChatSession
deriving DecidableEq

/-- A mocked SDK response with a `text` attribute. -/
structure MockResponse where
  text : String
deriving DecidableEq

/-- Errors `send_message` can raise. -/
inductive SendError where
  | valueError (msg : String)
  | sdkError (msg : String)
deriving DecidableEq

/-- `MultimodalAgent.start_chat` under a mocked SDK: installs a fresh chat
session. -/
def start_chat (a : MultimodalAgent) (fresh : ChatSession) : MultimodalAgent :=
  { a with chat := some fresh }

/-- `MultimodalAgent.send_message` (app/agent.py lines 43-94).  `mock` is the
mocked `chat.send_message`; `fresh` is the session a lazy `start_chat` would
install.  Python truthiness maps `None` and empty containers alike to the
empty string/list.  Returns the agent after the call, the result or raised
error, and the list of messages forwarded to the chat. -/
def send_message (a : MultimodalAgent) (mock : List MPart → Except String MockResponse)
    (fresh : ChatSession) (text_prompt : String)
    (image_parts audio_parts video_parts : List MPart) :
    MultimodalAgent × Except SendError String × List (List MPart) :=
  -- `if not self.chat: self.start_chat()`
  let a1 := if a.chat.isNone then start_chat a fresh else a
  -- `if not text_prompt and not image_parts and not audio_parts and not video_parts:`
  if text_prompt.isEmpty && image_parts.isEmpty && audio_parts.isEmpty && video_parts.isEmpty then
    (a1, .error (.valueError "At least one input type (text, image, audio, video) must be provided."), [])
  else
    let prompt_parts :=
      (if !text_prompt.isEmpty then [Part_from_text text_prompt] else [])
        ++ image_parts ++ audio_parts ++ video_parts
    match mock prompt_parts with
    | .ok response => (a1, .ok response.text, [prompt_parts])
    | .error e => (a1, .error (.sdkError e), [prompt_parts])

/-! ## HTTP routes

The repository runs two web servers.  `streaming-test2/app/main.py`
registers FastAPI routes with `@app.get`/`@app.post` decorators (lines 125,
134, 182, 210, 243) and mounts a static directory (line 65);
`streaming-test/app/web_interface.py` registers Flask routes with
`@web_app.route` (lines 96, 100, 105, 119, 132, 176; Flask's default method
is GET).  The routing declarations are embedded as method/path tables. -/

def fastapi_routes : List (String × String) :=
  [("GET", "/"),
   ("GET", "/events/{user_id}"),
   ("POST", "/send/{user_id}"),
   ("GET", "/logs/{log_type}"),
   ("GET", "/agent/camera/status")]

def fastapi_static_mounts : List String := ["/static"]

def flask_routes : List (String × String) :=
  [("GET", "/"),
   ("GET", "/video_feed"),
   ("GET", "/start_interaction"),
   ("GET", "/stop_interaction"),
   ("POST", "/send_chat_message"),
   ("GET", "/agent_events")]

/-- The endpoint set named by the specification (its `/logs/{type}` is the
code's `/logs/{log_type}`; the path-parameter name is a binder). -/
def spec_claimed_paths : List String :=
  ["/", "/events/{user_id}", "/send/{user_id}", "/logs/{log_type}",
   "/agent/camera/status"]

/-! ## CameraAgent.start / CameraAgent.stop

camera_agent.py lines 204-230.  The lifecycle state is `self.running`,
`self.thread`, and — for the single-thread invariant — the number of
monitor threads started and not yet stopped. -/

structure CamLifecycleState where
  running : Bool
  thread : Option Nat
  live : Nat
deriving DecidableEq

/-- State after `CameraAgent.__init__`: `self.running = False`,
`self.thread = None`. -/
def camInitState : CamLifecycleState := ⟨false, none, 0⟩

/-- `CameraAgent.start`: spawns a thread only when not running.  Returns the
new state and whether a thread was spawned. -/
def cam_start (st : CamLifecycleState) (tid : Nat) : CamLifecycleState × Bool :=
  if st.running then (st, false)
  else ({ running := true, thread := some tid, live := st.live + 1 }, true)

/-- `CameraAgent.stop`: when running, clears the flag, joins and drops the
thread reference; otherwise does nothing. -/
def cam_stop (st : CamLifecycleState) : CamLifecycleState :=
  if st.running then { running := false, thread := none, live := st.live - 1 }
  else st

inductive CamOp where
  | start (tid : Nat)
  | stop
deriving DecidableEq

def cam_apply (st : CamLifecycleState) : CamOp → CamLifecycleState
  | .start tid => (cam_start st tid).1
  | .stop => cam_stop st

def cam_run : CamLifecycleState → List CamOp → CamLifecycleState
  | st, [] => st
  | st, op :: ops => cam_run (cam_apply st op) ops

/-- The single-thread invariant: running exactly when one monitor thread has
been started and not stopped, with the reference held exactly then. -/
def CamInv (st : CamLifecycleState) : Prop :=
  (st.running = true → st.live = 1 ∧ st.thread.isSome = true) ∧
  (st.running = false → st.live = 0 ∧ st.thread = none)

/-! ## AudioAgent's ADK session table

audio_agent.py lines 132-194.  `active_adk_sessions` is a dict from
`user_id` to a session whose `live_request_queue` can be closed; a session's
queue is identified by a number, fresh numbers coming from a counter.
`start_adk_session` with `ok = false` models the exception path of lines
184-187 (the runner fails; any entry is deleted and the error re-raised). -/

structure AdkSessions where
  sessions : List (String × Nat)
  closed : List Nat
  nextId : Nat

def adkInit : AdkSessions := ⟨[], [], 0⟩

/-- `user_id in self.active_adk_sessions` / `self.active_adk_sessions[user_id]`. -/
def dict_lookup (l : List (String × Nat)) (u : String) : Option Nat :=
  (l.find? fun p => p.1 == u).map Prod.snd

/-- `del self.active_adk_sessions[user_id]`. -/
def dict_remove (l : List (String × Nat)) (u : String) : List (String × Nat) :=
  l.filter fun p => p.1 != u

/-- `AudioAgent.stop_adk_session`: close the queue and remove the entry,
when one exists. -/
def stop_adk_session (st : AdkSessions) (u : String) : AdkSessions :=
  match dict_lookup st.sessions u with
  | some q => ⟨dict_remove st.sessions u, q :: st.closed, st.nextId⟩
  | none => st

/-- `AudioAgent.start_adk_session`: stop any existing session for the user,
then install a fresh one (or, on the exception path, none). -/
def start_adk_session (st : AdkSessions) (u : String) (ok : Bool) : AdkSessions :=
  let st1 := if (dict_lookup st.sessions u).isSome then stop_adk_session st u else st
  if ok then ⟨(u, st1.nextId) :: st1.sessions, st1.closed, st1.nextId + 1⟩ else st1

inductive AdkOp where
  | start (u : String) (ok : Bool)
  | stop (u : String)

def adk_apply (st : AdkSessions) : AdkOp → AdkSessions
  | .start u ok => start_adk_session st u ok
  | .stop u => stop_adk_session st u

def adk_run : AdkSessions → List AdkOp → AdkSessions
  | st, [] => st
  | st, op :: ops => adk_run (adk_apply st op) ops

/-- Session-table invariant: no live session's queue is closed, session
queue ids are fresh and distinct, and each user has at most one entry. -/
def AdkInv (st : AdkSessions) : Prop :=
  (∀ p ∈ st.sessions, p.2 ∉ st.closed) ∧
  (∀ p ∈ st.sessions, p.2 < st.nextId) ∧
  (∀ q ∈ st.closed, q < st.nextId) ∧
  (st.sessions.map Prod.fst).Nodup ∧
  (st.sessions.map Prod.snd).Nodup

/-! ## Theorems for C3, C4, C9 -/

/-- C3: the claim that camera-log records have exactly the fields
`timestamp`, `description_by_cv`, `comment_by_llm` is false: the record
written by `_log_change` also carries `type` and `llm_processing_time_ms`. -/
theorem camera_record_extra_fields :
    recordFields (cameraLogEntry "2025-01-01T00:00:00" "motion" "a person entered" 1200) ≠
      ["timestamp", "description_by_cv", "comment_by_llm"] := by
  decide

/-- C3 (amended): every audio-log record has exactly the fields
`timestamp`, `speaker`, `text`; every camera-log record has exactly the
fields `timestamp`, `type`, `description_by_cv`, `comment_by_llm`,
`llm_processing_time_ms`. -/
theorem log_record_fields (ts sp tx d c : String) (p : Int) :
    recordFields (audioLogEntry ts sp tx) = ["timestamp", "speaker", "text"] ∧
    recordFields (cameraLogEntry ts d c p) =
      ["timestamp", "type", "description_by_cv", "comment_by_llm",
       "llm_processing_time_ms"] := by
  constructor <;> rfl

/-- C4: after a successful `_log_change` or `_log_transcription` the file is
a valid JSON array; a prior file that was missing, empty, unparsable or not
a list is replaced by the one-element array of the new entry, and a prior
array gets the new entry appended with all earlier entries preserved in
order. -/
theorem log_write_valid_array (prior priorA : FileContent LogRecord)
    (ts d c sp tx : String) (p : Int) :
    isJsonArray (log_change prior ts d c p) = true ∧
    isJsonArray (log_transcription priorA ts sp tx) = true ∧
    (∀ l, prior = .jsonList l →
      log_change prior ts d c p = .jsonList (l ++ [cameraLogEntry ts d c p])) ∧
    ((∀ l, prior ≠ .jsonList l) →
      log_change prior ts d c p = .jsonList [cameraLogEntry ts d c p]) ∧
    (∀ l, priorA = .jsonList l →
      log_transcription priorA ts sp tx = .jsonList (l ++ [audioLogEntry ts sp tx])) ∧
    ((∀ l, priorA ≠ .jsonList l) →
      log_transcription priorA ts sp tx = .jsonList [audioLogEntry ts sp tx]) := by
  refine ⟨?_, ?_, ?_, ?_, ?_, ?_⟩
  · cases prior <;> rfl
  · cases priorA <;> rfl
  · intro l h; subst h; rfl
  · intro h
    cases prior with
    | jsonList l => exact absurd rfl (h l)
    | missing => rfl
    | emptyFile => rfl
    | malformed => rfl
    | jsonNonList => rfl
  · intro l h; subst h; rfl
  · intro h
    cases priorA with
    | jsonList l => exact absurd rfl (h l)
    | missing => rfl
    | emptyFile => rfl
    | malformed => rfl
    | jsonNonList => rfl

/-- C4 witness: concrete instance with a malformed prior camera log and a
non-empty prior audio log. -/
theorem log_write_valid_array_witness :
    isJsonArray (log_change .malformed "t1" "d" "c" 0) = true ∧
    isJsonArray (log_transcription (.jsonList [audioLogEntry "t0" "user" "hi"]) "t1" "agent" "hello") = true ∧
    (∀ l, (FileContent.malformed : FileContent LogRecord) = .jsonList l →
      log_change .malformed "t1" "d" "c" 0 = .jsonList (l ++ [cameraLogEntry "t1" "d" "c" 0])) ∧
    ((∀ l, (FileContent.malformed : FileContent LogRecord) ≠ .jsonList l) →
      log_change .malformed "t1" "d" "c" 0 = .jsonList [cameraLogEntry "t1" "d" "c" 0]) ∧
    (∀ l, FileContent.jsonList [audioLogEntry "t0" "user" "hi"] = .jsonList l →
      log_transcription (.jsonList [audioLogEntry "t0" "user" "hi"]) "t1" "agent" "hello" =
        .jsonList (l ++ [audioLogEntry "t1" "agent" "hello"])) ∧
    ((∀ l, FileContent.jsonList [audioLogEntry "t0" "user" "hi"] ≠ .jsonList l) →
      log_transcription (.jsonList [audioLogEntry "t0" "user" "hi"]) "t1" "agent" "hello" =
        .jsonList [audioLogEntry "t1" "agent" "hello"]) :=
  log_write_valid_array .malformed (.jsonList [audioLogEntry "t0" "user" "hi"]) "t1" "d" "c" "agent" "hello" 0

/-- C9: `AudioAgent.__init__` truncates the audio log to an empty JSON array
unconditionally, and creates the camera log as an empty array only when it
does not exist, leaving an existing camera log unchanged. -/
theorem audio_agent_init_logs_spec (audioLog cameraLog : Option (FileContent LogRecord)) :
    (audio_agent_init_logs audioLog cameraLog).1 = some (.jsonList []) ∧
    (∀ c, cameraLog = some c → (audio_agent_init_logs audioLog cameraLog).2 = some c) ∧
    (cameraLog = none → (audio_agent_init_logs audioLog cameraLog).2 = some (.jsonList [])) := by
  refine ⟨rfl, ?_, ?_⟩
  · intro c h; subst h; rfl
  · intro h; subst h; rfl

/-- C9 witness: a previous run left a one-entry audio log and a one-entry
camera log; init wipes the former and keeps the latter. -/
theorem audio_agent_init_logs_witness :
    (audio_agent_init_logs (some (.jsonList [audioLogEntry "t" "user" "old"]))
        (some (.jsonList [cameraLogEntry "t" "d" "c" 0]))).1 = some (.jsonList []) ∧
    (∀ c, (some (.jsonList [cameraLogEntry "t" "d" "c" 0]) :
            Option (FileContent LogRecord)) = some c →
      (audio_agent_init_logs (some (.jsonList [audioLogEntry "t" "user" "old"]))
        (some (.jsonList [cameraLogEntry "t" "d" "c" 0]))).2 = some c) ∧
    ((some (.jsonList [cameraLogEntry "t" "d" "c" 0]) :
        Option (FileContent LogRecord)) = none →
      (audio_agent_init_logs (some (.jsonList [audioLogEntry "t" "user" "old"]))
        (some (.jsonList [cameraLogEntry "t" "d" "c" 0]))).2 = some (.jsonList [])) :=
  audio_agent_init_logs_spec (some (.jsonList [audioLogEntry "t" "user" "old"]))
    (some (.jsonList [cameraLogEntry "t" "d" "c" 0]))

/-! ## Theorems for C1 and C2: the monitor loop and error handling -/

/-- C1: the claim that every iteration with a detected change and available
frame bytes produces exactly one model call followed by one log append is
false: when `chat.send_message` raises, the iteration makes the one model
call but appends nothing to the log. -/
theorem monitor_call_without_log :
    countModelCalls (monitor_iteration ⟨true, true⟩
      ⟨⟨true, "motion detected", some [1, 2, 3]⟩, true, .raises "boom", "t0", 500⟩).2 = 1 ∧
    countLogAppends (monitor_iteration ⟨true, true⟩
      ⟨⟨true, "motion detected", some [1, 2, 3]⟩, true, .raises "boom", "t0", 500⟩).2 = 0 :=
  ⟨rfl, rfl⟩

/-- C1 (amended): while the running flag is true the loop performs the
fixed cycle; an iteration without a detected change (or without frame
bytes) makes no model call and no log append; an iteration with a detected
change and frame bytes makes no model call when a chat session cannot be
started, and otherwise makes exactly one model call — followed by exactly
one log append when the call returns, and by no log append (the chat is
dropped instead) when it raises; the loop produces nothing once running is
false. -/
theorem monitor_iteration_cycle (st : CameraState) (env : MonitorEnv)
    (envs : List MonitorEnv) :
    ((env.frame.changed = false ∨ env.frame.frame_bytes = none) →
       countModelCalls (monitor_iteration st env).2 = 0 ∧
       countLogAppends (monitor_iteration st env).2 = 0) ∧
    (∀ b, env.frame.frame_bytes = some b → env.frame.changed = true →
       ((st.chat || env.chatStartOk) = false →
          countModelCalls (monitor_iteration st env).2 = 0 ∧
          countLogAppends (monitor_iteration st env).2 = 0) ∧
       ((st.chat || env.chatStartOk) = true →
          countModelCalls (monitor_iteration st env).2 = 1 ∧
          (∀ c, env.send = .ok c →
             ∃ entry, (monitor_iteration st env).2 =
               [.saveLatestImage b,
                .modelCall (promptText env.frame.description) b,
                .logAppend entry, .sleepMs 100]) ∧
          (∀ m, env.send = .raises m →
             countLogAppends (monitor_iteration st env).2 = 0 ∧
             (monitor_iteration st env).1.chat = false))) ∧
    (monitor_iteration st env).1.running = st.running ∧
    (st.running = false → monitor_loop st (env :: envs) = (st, [])) := by
  obtain ⟨⟨changed, desc, fb⟩, cso, send, ts, el⟩ := env
  obtain ⟨chat, running⟩ := st
  refine ⟨?_, ?_, ?_, ?_⟩
  · rintro (h | h) <;> simp only at h <;> subst h
    · cases fb <;> exact ⟨rfl, rfl⟩
    · cases changed <;> exact ⟨rfl, rfl⟩
  · intro b hb htrue
    simp only at hb htrue
    subst hb; subst htrue
    constructor
    · intro hfalse
      simp only at hfalse
      simp [monitor_iteration, hfalse, countModelCalls, countLogAppends]
    · intro htrue2
      simp only at htrue2
      refine ⟨?_, ?_, ?_⟩
      · cases send <;> simp [monitor_iteration, htrue2, countModelCalls]
      · intro c hc
        simp only at hc
        subst hc
        simp only [monitor_iteration, htrue2, if_true]
        exact ⟨_, rfl⟩
      · intro m hm
        simp only at hm
        subst hm
        simp [monitor_iteration, htrue2, countLogAppends]
  · cases fb <;> cases changed <;> cases hc : (chat || cso) <;> cases send <;>
      simp [monitor_iteration, hc]
  · intro hrun
    simp only at hrun
    subst hrun
    rfl

/-- C1 amended, witness: a change with frame bytes, a live chat and a
successful model call yields exactly the save-image, model-call,
log-append, sleep sequence. -/
theorem monitor_iteration_cycle_witness :
    countModelCalls (monitor_iteration ⟨true, true⟩
      ⟨⟨true, "door opened", some [7]⟩, false, .ok "A person entered.", "t1", 90⟩).2 = 1 ∧
    (∃ entry, (monitor_iteration ⟨true, true⟩
      ⟨⟨true, "door opened", some [7]⟩, false, .ok "A person entered.", "t1", 90⟩).2 =
        [.saveLatestImage [7],
         .modelCall (promptText "door opened") [7],
         .logAppend entry, .sleepMs 100]) := by
  have h := monitor_iteration_cycle ⟨true, true⟩
    ⟨⟨true, "door opened", some [7]⟩, false, .ok "A person entered.", "t1", 90⟩ []
  have h2 := (h.2.1 [7] rfl rfl).2 rfl
  exact ⟨h2.1, h2.2.1 "A person entered." rfl⟩

/-- Evaluation of `send_message` when every input is empty: the `ValueError`
branch. -/
theorem send_message_empty_eval (a : MultimodalAgent)
    (mock : List MPart → Except String MockResponse) (fresh : ChatSession)
    (t : String) (i au v : List MPart)
    (h : (t.isEmpty && i.isEmpty && au.isEmpty && v.isEmpty) = true) :
    send_message a mock fresh t i au v =
      (if a.chat.isNone then start_chat a fresh else a,
       .error (.valueError
         "At least one input type (text, image, audio, video) must be provided."),
       []) := by
  simp only [send_message]
  rw [if_pos h]

/-- Evaluation of `send_message` when some input is non-empty: the
forwarding branch. -/
theorem send_message_nonempty_eval (a : MultimodalAgent)
    (mock : List MPart → Except String MockResponse) (fresh : ChatSession)
    (t : String) (i au v : List MPart)
    (h : (t.isEmpty && i.isEmpty && au.isEmpty && v.isEmpty) = false) :
    send_message a mock fresh t i au v =
      (if a.chat.isNone then start_chat a fresh else a,
       (match mock ((if !t.isEmpty then [Part_from_text t] else []) ++ i ++ au ++ v) with
        | .ok response => .ok response.text
        | .error e => .error (.sdkError e)),
       [(if !t.isEmpty then [Part_from_text t] else []) ++ i ++ au ++ v]) := by
  simp only [send_message]
  rw [if_neg (by simp [h])]
  cases mock ((if !t.isEmpty then [Part_from_text t] else []) ++ i ++ au ++ v) <;> rfl

/-- C2: when the model call raises, `MultimodalAgent.send_message` re-raises
the same error with its fields unchanged (and unchanged from the moment of
the call even when the chat was lazily started), forwarding the message
exactly once; the camera agent's monitor loop instead swallows the error,
resets its chat to None, keeps running, and does not retry the call. -/
theorem error_handling_no_retry (a : MultimodalAgent)
    (mock : List MPart → Except String MockResponse) (fresh : ChatSession)
    (t : String) (i au v : List MPart) (m : String)
    (st : CameraState) (env : MonitorEnv) (msg : String) (b : List Nat)
    (hsome : (t.isEmpty && i.isEmpty && au.isEmpty && v.isEmpty) = false)
    (hmock : mock ((if !t.isEmpty then [Part_from_text t] else []) ++ i ++ au ++ v) =
      .error m)
    (henv : env.send = .raises msg) (hb : env.frame.frame_bytes = some b)
    (hch : env.frame.changed = true) (hchat : st.chat = true) :
    (send_message a mock fresh t i au v).2.1 = .error (.sdkError m) ∧
    (send_message a mock fresh t i au v).1 =
      (if a.chat.isNone then start_chat a fresh else a) ∧
    (send_message a mock fresh t i au v).1.project_id = a.project_id ∧
    (send_message a mock fresh t i au v).1.location = a.location ∧
    (send_message a mock fresh t i au v).1.model_name = a.model_name ∧
    (a.chat.isSome → (send_message a mock fresh t i au v).1 = a) ∧
    (send_message a mock fresh t i au v).2.2.length = 1 ∧
    (monitor_iteration st env).1.chat = false ∧
    (monitor_iteration st env).1.running = st.running ∧
    countModelCalls (monitor_iteration st env).2 = 1 ∧
    countLogAppends (monitor_iteration st env).2 = 0 := by
  obtain ⟨ap, al, am, ac⟩ := a
  obtain ⟨⟨changed, desc, fb⟩, cso, send, ts, el⟩ := env
  obtain ⟨chat, running⟩ := st
  simp only at henv hb hch hchat
  subst henv; subst hb; subst hch; subst hchat
  have key : send_message ⟨ap, al, am, ac⟩ mock fresh t i au v =
      (if (⟨ap, al, am, ac⟩ : MultimodalAgent).chat.isNone
       then start_chat ⟨ap, al, am, ac⟩ fresh else ⟨ap, al, am, ac⟩,
       .error (.sdkError m),
       [(if !t.isEmpty then [Part_from_text t] else []) ++ i ++ au ++ v]) := by
    rw [send_message_nonempty_eval _ mock fresh t i au v hsome, hmock]
  refine ⟨by rw [key], by rw [key], ?_, ?_, ?_, ?_, by rw [key]; rfl, rfl, rfl, rfl, rfl⟩
  · rw [key]; cases ac <;> rfl
  · rw [key]; cases ac <;> rfl
  · rw [key]; cases ac <;> rfl
  · intro hcs
    rw [key]
    cases ac with
    | none => simp at hcs
    | some s => rfl

/-- C2 witness: a concrete agent with a live chat, a mock that fails, and a
monitor iteration whose model call raises. -/
theorem error_handling_no_retry_witness :
    (send_message ⟨"p", "l", "gemini-2.0-flash", some ⟨0⟩⟩
        (fun _ => .error "quota") ⟨1⟩ "hello" [] [] []).2.1 =
      .error (.sdkError "quota") ∧
    (send_message ⟨"p", "l", "gemini-2.0-flash", some ⟨0⟩⟩
        (fun _ => .error "quota") ⟨1⟩ "hello" [] [] []).1 =
      (if (⟨"p", "l", "gemini-2.0-flash", some ⟨0⟩⟩ : MultimodalAgent).chat.isNone
       then start_chat ⟨"p", "l", "gemini-2.0-flash", some ⟨0⟩⟩ ⟨1⟩
       else ⟨"p", "l", "gemini-2.0-flash", some ⟨0⟩⟩) ∧
    (send_message ⟨"p", "l", "gemini-2.0-flash", some ⟨0⟩⟩
        (fun _ => .error "quota") ⟨1⟩ "hello" [] [] []).1.project_id = "p" ∧
    (send_message ⟨"p", "l", "gemini-2.0-flash", some ⟨0⟩⟩
        (fun _ => .error "quota") ⟨1⟩ "hello" [] [] []).1.location = "l" ∧
    (send_message ⟨"p", "l", "gemini-2.0-flash", some ⟨0⟩⟩
        (fun _ => .error "quota") ⟨1⟩ "hello" [] [] []).1.model_name = "gemini-2.0-flash" ∧
    ((⟨"p", "l", "gemini-2.0-flash", some ⟨0⟩⟩ : MultimodalAgent).chat.isSome →
      (send_message ⟨"p", "l", "gemini-2.0-flash", some ⟨0⟩⟩
        (fun _ => .error "quota") ⟨1⟩ "hello" [] [] []).1 =
        ⟨"p", "l", "gemini-2.0-flash", some ⟨0⟩⟩) ∧
    (send_message ⟨"p", "l", "gemini-2.0-flash", some ⟨0⟩⟩
        (fun _ => .error "quota") ⟨1⟩ "hello" [] [] []).2.2.length = 1 ∧
    (monitor_iteration ⟨true, true⟩
      ⟨⟨true, "motion", some [9]⟩, false, .raises "boom", "t2", 10⟩).1.chat = false ∧
    (monitor_iteration ⟨true, true⟩
      ⟨⟨true, "motion", some [9]⟩, false, .raises "boom", "t2", 10⟩).1.running =
      (⟨true, true⟩ : CameraState).running ∧
    countModelCalls (monitor_iteration ⟨true, true⟩
      ⟨⟨true, "motion", some [9]⟩, false, .raises "boom", "t2", 10⟩).2 = 1 ∧
    countLogAppends (monitor_iteration ⟨true, true⟩
      ⟨⟨true, "motion", some [9]⟩, false, .raises "boom", "t2", 10⟩).2 = 0 :=
  error_handling_no_retry ⟨"p", "l", "gemini-2.0-flash", some ⟨0⟩⟩
    (fun _ => .error "quota") ⟨1⟩ "hello" [] [] [] "quota" ⟨true, true⟩
    ⟨⟨true, "motion", some [9]⟩, false, .raises "boom", "t2", 10⟩ "boom" [9]
    rfl rfl rfl rfl rfl rfl

/-! ## Theorems for C5 and C8: send_message forwarding and validation -/

/-- C5: with a mocked SDK chat, `send_message` forwards exactly one message,
whose parts are the optional text part followed by the image, audio and
video parts in order, and relays the mocked response's `text` attribute
unchanged. -/
theorem send_message_forwards (a : MultimodalAgent)
    (mock : List MPart → Except String MockResponse) (fresh : ChatSession)
    (t : String) (i au v : List MPart)
    (hsome : (t.isEmpty && i.isEmpty && au.isEmpty && v.isEmpty) = false) :
    (send_message a mock fresh t i au v).2.2 =
      [(if !t.isEmpty then [Part_from_text t] else []) ++ i ++ au ++ v] ∧
    (∀ r, mock ((if !t.isEmpty then [Part_from_text t] else []) ++ i ++ au ++ v) =
        .ok r →
      (send_message a mock fresh t i au v).2.1 = .ok r.text) := by
  have key := send_message_nonempty_eval a mock fresh t i au v hsome
  constructor
  · rw [key]
  · intro r hr
    rw [key, hr]

/-- C5 witness: a text prompt together with one image part is forwarded as
`[text, image]` and the mocked response text comes back unchanged. -/
theorem send_message_forwards_witness :
    (send_message ⟨"p", "l", "m", none⟩
        (fun _ => (Except.ok ⟨"a sunny street"⟩ : Except String MockResponse)) ⟨0⟩
        "Describe this image" [.data "image/jpeg" [255, 216]] [] []).2.2 =
      [(if !("Describe this image".isEmpty) then [Part_from_text "Describe this image"]
        else []) ++ [.data "image/jpeg" [255, 216]] ++ [] ++ []] ∧
    (send_message ⟨"p", "l", "m", none⟩
        (fun _ => (Except.ok ⟨"a sunny street"⟩ : Except String MockResponse)) ⟨0⟩
        "Describe this image" [.data "image/jpeg" [255, 216]] [] []).2.1 =
      .ok (MockResponse.mk "a sunny street").text := by
  have h := send_message_forwards ⟨"p", "l", "m", none⟩
    (fun _ => (Except.ok ⟨"a sunny street"⟩ : Except String MockResponse)) ⟨0⟩
    "Describe this image" [.data "image/jpeg" [255, 216]] [] [] rfl
  exact ⟨h.1, h.2 ⟨"a sunny street"⟩ rfl⟩

/-- C8: `send_message` raises `ValueError` exactly when all four inputs are
absent or empty; in that case nothing is forwarded to the chat, yet a chat
session exists afterwards because the lazy `start_chat` runs before the
validation. -/
theorem send_message_value_error (a : MultimodalAgent)
    (mock : List MPart → Except String MockResponse) (fresh : ChatSession)
    (t : String) (i au v : List MPart) :
    ((∃ m, (send_message a mock fresh t i au v).2.1 = .error (.valueError m)) ↔
      (t.isEmpty && i.isEmpty && au.isEmpty && v.isEmpty) = true) ∧
    ((t.isEmpty && i.isEmpty && au.isEmpty && v.isEmpty) = true →
      (send_message a mock fresh t i au v).2.2 = [] ∧
      (send_message a mock fresh t i au v).1.chat.isSome = true ∧
      (a.chat = none → (send_message a mock fresh t i au v).1 = start_chat a fresh) ∧
      (∀ s, a.chat = some s → (send_message a mock fresh t i au v).1 = a)) := by
  obtain ⟨ap, al, am, ac⟩ := a
  cases hempty : (t.isEmpty && i.isEmpty && au.isEmpty && v.isEmpty) with
  | true =>
    have key := send_message_empty_eval ⟨ap, al, am, ac⟩ mock fresh t i au v hempty
    refine ⟨⟨fun _ => rfl, fun _ => ?_⟩, fun _ => ⟨by rw [key], ?_, ?_, ?_⟩⟩
    · exact ⟨"At least one input type (text, image, audio, video) must be provided.",
        by rw [key]⟩
    · rw [key]; cases ac <;> rfl
    · intro hac
      simp only at hac
      subst hac
      rw [key]; rfl
    · intro s hac
      simp only at hac
      subst hac
      rw [key]; rfl
  | false =>
    have key := send_message_nonempty_eval ⟨ap, al, am, ac⟩ mock fresh t i au v hempty
    refine ⟨⟨?_, fun h => (Bool.false_ne_true h).elim⟩,
      fun h => (Bool.false_ne_true h).elim⟩
    rintro ⟨m, hm⟩
    rw [key] at hm
    simp only at hm
    cases hmk : mock ((if !t.isEmpty then [Part_from_text t] else []) ++ i ++ au ++ v) <;>
      rw [hmk] at hm <;> simp at hm

/-- C8 witness: calling with every input empty on an agent without a chat
raises the validation error, forwards nothing, and leaves a freshly started
chat session behind. -/
theorem send_message_value_error_witness :
    ((∃ m, (send_message ⟨"p", "l", "m", none⟩ (fun _ => .ok ⟨"ignored"⟩) ⟨3⟩
        "" [] [] []).2.1 = .error (.valueError m)) ↔
      ("".isEmpty && List.isEmpty ([] : List MPart) && List.isEmpty ([] : List MPart) &&
        List.isEmpty ([] : List MPart)) = true) ∧
    (("".isEmpty && List.isEmpty ([] : List MPart) && List.isEmpty ([] : List MPart) &&
        List.isEmpty ([] : List MPart)) = true →
      (send_message ⟨"p", "l", "m", none⟩ (fun _ => .ok ⟨"ignored"⟩) ⟨3⟩
        "" [] [] []).2.2 = [] ∧
      (send_message ⟨"p", "l", "m", none⟩ (fun _ => .ok ⟨"ignored"⟩) ⟨3⟩
        "" [] [] []).1.chat.isSome = true ∧
      ((⟨"p", "l", "m", none⟩ : MultimodalAgent).chat = none →
        (send_message ⟨"p", "l", "m", none⟩ (fun _ => .ok ⟨"ignored"⟩) ⟨3⟩
          "" [] [] []).1 = start_chat ⟨"p", "l", "m", none⟩ ⟨3⟩) ∧
      (∀ s, (⟨"p", "l", "m", none⟩ : MultimodalAgent).chat = some s →
        (send_message ⟨"p", "l", "m", none⟩ (fun _ => .ok ⟨"ignored"⟩) ⟨3⟩
          "" [] [] []).1 = ⟨"p", "l", "m", none⟩)) :=
  send_message_value_error ⟨"p", "l", "m", none⟩ (fun _ => .ok ⟨"ignored"⟩) ⟨3⟩
    "" [] [] []

/-! ## Theorems for C6: the served routes -/

/-- C6: the claim that the repository's web servers expose exactly the five
listed endpoints is false: the Flask server in streaming-test serves
`/video_feed`, which is not among them. -/
theorem flask_route_outside_claimed_set :
    "/video_feed" ∈ flask_routes.map Prod.snd ∧
    "/video_feed" ∉ spec_claimed_paths := by
  decide

/-- C6 (amended): the FastAPI server of streaming-test2 exposes exactly the
five claimed endpoints plus a `/static` file mount, while the Flask server
of streaming-test exposes its own distinct set `/`, `/video_feed`,
`/start_interaction`, `/stop_interaction`, `/send_chat_message`,
`/agent_events`. -/
theorem repo_routes :
    fastapi_routes.map Prod.snd = spec_claimed_paths ∧
    fastapi_static_mounts = ["/static"] ∧
    flask_routes.map Prod.snd =
      ["/", "/video_feed", "/start_interaction", "/stop_interaction",
       "/send_chat_message", "/agent_events"] := by
  decide

/-! ## Theorems for C7: one monitor thread per camera agent -/

/-- The single-thread invariant holds in every state reachable from
`__init__` by `start`/`stop` calls. -/
theorem cam_inv_run (ops : List CamOp) :
    ∀ st, CamInv st → CamInv (cam_run st ops) := by
  induction ops with
  | nil => intro st h; exact h
  | cons op ops ih =>
    intro st h
    refine ih _ ?_
    obtain ⟨h1, h2⟩ := h
    cases op with
    | start tid =>
      cases hr : st.running with
      | true => simpa [cam_apply, cam_start, hr] using ⟨h1, h2⟩
      | false =>
        refine ⟨?_, ?_⟩ <;> simp [cam_apply, cam_start, hr]
        exact (h2 hr).1
    | stop =>
      cases hr : st.running with
      | true =>
        refine ⟨?_, ?_⟩ <;> simp [cam_apply, cam_stop, hr]
        rw [(h1 hr).1]
      | false => simpa [cam_apply, cam_stop, hr] using ⟨h1, h2⟩

/-- C7: in every state reachable by `start`/`stop` calls, the single-thread
invariant holds; calling `start` while running changes nothing and spawns
no thread; `stop` always leaves the agent not running with the thread
reference cleared. -/
theorem camera_single_thread (ops : List CamOp) (tid : Nat) :
    CamInv (cam_run camInitState ops) ∧
    ((cam_run camInitState ops).running = true →
      cam_start (cam_run camInitState ops) tid = (cam_run camInitState ops, false)) ∧
    (cam_stop (cam_run camInitState ops)).running = false ∧
    (cam_stop (cam_run camInitState ops)).thread = none := by
  have hinv : CamInv (cam_run camInitState ops) := by
    refine cam_inv_run ops camInitState ⟨?_, ?_⟩ <;> simp [camInitState]
  refine ⟨hinv, ?_, ?_, ?_⟩
  · intro hr
    simp [cam_start, hr]
  · cases hr : (cam_run camInitState ops).running with
    | true => simp [cam_stop, hr]
    | false => simp [cam_stop, hr]
  · cases hr : (cam_run camInitState ops).running with
    | true => simp [cam_stop, hr]
    | false =>
      simp only [cam_stop, hr, Bool.false_eq_true, if_false]
      exact (hinv.2 hr).2

/-- C7 witness: after one `start` from the initial state the agent is
running; a second `start` changes nothing and spawns nothing, and `stop`
clears both flag and thread. -/
theorem camera_single_thread_witness :
    (cam_run camInitState [CamOp.start 1]).running = true ∧
    cam_start (cam_run camInitState [CamOp.start 1]) 2 =
      (cam_run camInitState [CamOp.start 1], false) ∧
    (cam_stop (cam_run camInitState [CamOp.start 1])).running = false ∧
    (cam_stop (cam_run camInitState [CamOp.start 1])).thread = none :=
  ⟨rfl, (camera_single_thread [CamOp.start 1] 2).2.1 rfl,
   (camera_single_thread [CamOp.start 1] 2).2.2.1,
   (camera_single_thread [CamOp.start 1] 2).2.2.2⟩

/-! ## Theorems for C10: one live ADK session per user -/

theorem dict_lookup_eq_some_iff {l : List (String × Nat)} {u : String} {q : Nat}
    (h : dict_lookup l u = some q) : ∃ p ∈ l, p.1 = u ∧ p.2 = q := by
  unfold dict_lookup at h
  cases hf : l.find? (fun p => p.1 == u) with
  | none => rw [hf] at h; simp at h
  | some p =>
    rw [hf] at h
    simp only [Option.map_some'] at h
    refine ⟨p, List.mem_of_find?_eq_some hf, ?_, Option.some.inj h⟩
    have hp := List.find?_some hf
    simpa using hp

theorem dict_lookup_none_keys {l : List (String × Nat)} {u : String}
    (h : dict_lookup l u = none) : ∀ p ∈ l, p.1 ≠ u := by
  unfold dict_lookup at h
  cases hf : l.find? (fun p => p.1 == u) with
  | some p => rw [hf] at h; simp at h
  | none =>
    intro p hp
    have := List.find?_eq_none.mp hf p hp
    simpa using this

theorem dict_remove_lookup_self (l : List (String × Nat)) (u : String) :
    dict_lookup (dict_remove l u) u = none := by
  unfold dict_lookup dict_remove
  have : (l.filter fun p => p.1 != u).find? (fun p => p.1 == u) = none := by
    rw [List.find?_eq_none]
    intro p hp
    have hne := (List.mem_filter.mp hp).2
    simp only [bne_iff_ne, ne_eq] at hne
    simpa using hne
  rw [this]
  rfl

theorem adk_inv_stop (st : AdkSessions) (u : String) (h : AdkInv st) :
    AdkInv (stop_adk_session st u) := by
  obtain ⟨h1, h2, h3, h4, h5⟩ := h
  cases hq : dict_lookup st.sessions u with
  | none => simpa [stop_adk_session, hq] using ⟨h1, h2, h3, h4, h5⟩
  | some q =>
    obtain ⟨pf, hpfmem, hpfu, hpfq⟩ := dict_lookup_eq_some_iff hq
    simp only [stop_adk_session, hq]
    refine ⟨?_, ?_, ?_, ?_, ?_⟩
    · intro p hp
      have hpl : p ∈ st.sessions := List.mem_of_mem_filter hp
      have hne : (p.1 != u) = true := (List.mem_filter.mp hp).2
      simp only [bne_iff_ne, ne_eq] at hne
      intro hmem
      rcases List.mem_cons.mp hmem with heq | hmem2
      · have hpq : p.2 = pf.2 := heq.trans hpfq.symm
        have hpe : p = pf := List.inj_on_of_nodup_map h5 hpl hpfmem hpq
        exact hne (hpe ▸ hpfu)
      · exact h1 p hpl hmem2
    · intro p hp
      exact h2 p (List.mem_of_mem_filter hp)
    · intro x hx
      rcases List.mem_cons.mp hx with heq | hmem2
      · rw [heq, ← hpfq]
        exact h2 pf hpfmem
      · exact h3 x hmem2
    · exact List.Nodup.sublist
        (List.Sublist.map Prod.fst (List.filter_sublist st.sessions)) h4
    · exact List.Nodup.sublist
        (List.Sublist.map Prod.snd (List.filter_sublist st.sessions)) h5

theorem adk_stop_lookup_none (st : AdkSessions) (u : String) :
    dict_lookup (stop_adk_session st u).sessions u = none := by
  cases hq : dict_lookup st.sessions u with
  | none => simp [stop_adk_session, hq]
  | some q =>
    simp only [stop_adk_session, hq]
    exact dict_remove_lookup_self st.sessions u

theorem adk_inv_start (st : AdkSessions) (u : String) (ok : Bool) (h : AdkInv st) :
    AdkInv (start_adk_session st u ok) := by
  have hinv1 : AdkInv (if (dict_lookup st.sessions u).isSome
      then stop_adk_session st u else st) := by
    cases hq : (dict_lookup st.sessions u).isSome with
    | true => simpa [hq] using adk_inv_stop st u h
    | false => simpa [hq] using h
  have hu : dict_lookup (if (dict_lookup st.sessions u).isSome
      then stop_adk_session st u else st).sessions u = none := by
    cases hq : dict_lookup st.sessions u with
    | some q => simp only [hq, Option.isSome_some, if_true]; exact adk_stop_lookup_none st u
    | none => simp [hq]
  obtain ⟨g1, g2, g3, g4, g5⟩ := hinv1
  cases ok with
  | false => simpa [start_adk_session] using ⟨g1, g2, g3, g4, g5⟩
  | true =>
    simp only [start_adk_session, if_true]
    set st1 := if (dict_lookup st.sessions u).isSome then stop_adk_session st u else st with hst1
    refine ⟨?_, ?_, ?_, ?_, ?_⟩
    · intro p hp
      rcases List.mem_cons.mp hp with heq | hmem
      · subst heq
        intro hc
        exact absurd (g3 _ hc) (lt_irrefl _)
      · exact g1 p hmem
    · intro p hp
      rcases List.mem_cons.mp hp with heq | hmem
      · subst heq; exact Nat.lt_succ_self _
      · exact Nat.lt_succ_of_lt (g2 p hmem)
    · intro x hx
      exact Nat.lt_succ_of_lt (g3 x hx)
    · refine List.nodup_cons.mpr ⟨?_, g4⟩
      intro hmem
      obtain ⟨p, hpmem, hpfst⟩ := List.mem_map.mp hmem
      exact dict_lookup_none_keys hu p hpmem hpfst
    · refine List.nodup_cons.mpr ⟨?_, g5⟩
      intro hmem
      obtain ⟨p, hpmem, hpsnd⟩ := List.mem_map.mp hmem
      exact absurd (hpsnd ▸ g2 p hpmem) (lt_irrefl _)

theorem adk_inv_run (ops : List AdkOp) :
    ∀ st, AdkInv st → AdkInv (adk_run st ops) := by
  induction ops with
  | nil => intro st h; exact h
  | cons op ops ih =>
    intro st h
    refine ih _ ?_
    cases op with
    | start u ok => exact adk_inv_start st u ok h
    | stop u => exact adk_inv_stop st u h

/-- C10: after any sequence of `start_adk_session`/`stop_adk_session` calls
from a fresh `AudioAgent`, each user has at most one session, no live
session's queue is closed, `stop_adk_session` closes a user's queue and
removes the entry, and `start_adk_session` for a user with an existing
session closes the old queue. -/
theorem adk_sessions_unique (ops : List AdkOp) :
    (((adk_run adkInit ops).sessions.map Prod.fst).Nodup) ∧
    (∀ u q, dict_lookup (adk_run adkInit ops).sessions u = some q →
      q ∉ (adk_run adkInit ops).closed) ∧
    (∀ u q, dict_lookup (adk_run adkInit ops).sessions u = some q →
      dict_lookup (stop_adk_session (adk_run adkInit ops) u).sessions u = none ∧
      q ∈ (stop_adk_session (adk_run adkInit ops) u).closed) ∧
    (∀ u q ok, dict_lookup (adk_run adkInit ops).sessions u = some q →
      q ∈ (start_adk_session (adk_run adkInit ops) u ok).closed) := by
  have hinv : AdkInv (adk_run adkInit ops) := by
    refine adk_inv_run ops adkInit ⟨?_, ?_, ?_, ?_, ?_⟩ <;> simp [adkInit]
  refine ⟨hinv.2.2.2.1, ?_, ?_, ?_⟩
  · intro u q hq
    obtain ⟨p, hpmem, _, hpq⟩ := dict_lookup_eq_some_iff hq
    exact hpq ▸ hinv.1 p hpmem
  · intro u q hq
    refine ⟨adk_stop_lookup_none _ u, ?_⟩
    simp only [stop_adk_session, hq]
    exact List.mem_cons_self q _
  · intro u q ok hq
    have hclosed : q ∈ (stop_adk_session (adk_run adkInit ops) u).closed := by
      simp only [stop_adk_session, hq]
      exact List.mem_cons_self q _
    cases ok with
    | true =>
      simp only [start_adk_session, hq, Option.isSome_some, if_true]
      exact hclosed
    | false =>
      simp only [start_adk_session, hq, Option.isSome_some, if_true]
      exact hclosed

/-- C10 witness: starting a session for "alice", then starting a second one
for her, closes the first queue while the table keeps a single live entry
for "alice". -/
theorem adk_sessions_unique_witness :
    dict_lookup (adk_run adkInit [AdkOp.start "alice" true]).sessions "alice" = some 0 ∧
    0 ∉ (adk_run adkInit [AdkOp.start "alice" true]).closed ∧
    0 ∈ (start_adk_session (adk_run adkInit [AdkOp.start "alice" true]) "alice" true).closed ∧
    dict_lookup (stop_adk_session (adk_run adkInit [AdkOp.start "alice" true])
      "alice").sessions "alice" = none :=
  ⟨rfl,
   (adk_sessions_unique [AdkOp.start "alice" true]).2.1 "alice" 0 rfl,
   (adk_sessions_unique [AdkOp.start "alice" true]).2.2.2 "alice" 0 true rfl,
   ((adk_sessions_unique [AdkOp.start "alice" true]).2.2.1 "alice" 0 rfl).1⟩

end Spec2Proof
